import Mathlib

/-!
# Verification of the titerra criteria-expansion engine

Shallow embedding of the criteria expansion code of the `titerra`
repository (files under `titerra/projects/common/variables` and
`titerra/projects/fordyca_argos/variables`), together with theorems
settling the frozen claims about it.

Modelling conventions:
* Python `XMLAttrChange(path, attr, value)` becomes the `XMLAttrChange`
  structure below; values are kept as strings exactly as the source
  formats them.
* `XMLAttrChangeSet` is modelled as a `List XMLAttrChange` in insertion
  order.  Every set built by the embedded code holds pairwise distinct
  triples, so the list model is faithful to the Python set semantics.
* Python floats are modelled as exact rationals (`ℚ`); the `"%3.9f"` /
  `"{0:.9f}"` format is the function `fmt9` (round to 9 decimal digits,
  render with a zero-padded 9-digit fraction; the minimum-width 3 of
  `%3.9f` never pads because the rendered string is always longer).
* Python's substring test `pat in s` is the function `pyIn`.
-/

/-- One XML attribute modification: `XMLAttrChange(path, attr, value)`. -/
structure XMLAttrChange where
  path : String
  attr : String
  value : String
deriving DecidableEq, Repr

/-- Prefix test on character lists. -/
def charsPre : List Char → List Char → Bool
  | [], _ => true
  | _ :: _, [] => false
  | a :: as, b :: bs => a == b && charsPre as bs

/-- Substring test on character lists: does `pat` occur in `s`? -/
def charsSub (pat : List Char) : List Char → Bool
  | [] => charsPre pat []
  | c :: rest => charsPre pat (c :: rest) || charsSub pat rest

/-- Python's substring containment test `pat in s`. -/
def pyIn (pat s : String) : Bool :=
  charsSub pat.data s.data

/-- Left-pad a string with `'0'` to 9 characters (fraction rendering). -/
def padZeros9 (s : String) : String :=
  String.mk (List.replicate (9 - s.length) '0') ++ s

/-- Render a number of nano-units as a fixed-point decimal with 9 digits
after the point. -/
def fmt9Nat (n : ℕ) : String :=
  toString (n / 1000000000) ++ "." ++ padZeros9 (toString (n % 1000000000))

/-- `⌊|q| * 10^9 + 1/2⌋` computed on the numerator/denominator: for
`q = n / d` (with `d > 0`) this is `(2 * |n| * 10^9 + d) / (2 * d)` in
natural division. -/
def round9 (q : ℚ) : ℕ :=
  (2 * q.num.natAbs * 1000000000 + q.den) / (2 * q.den)

/-- The Python format `"%3.9f" % q` / `"{0:.9f}".format(q)` on the exact
rational value `q`: round `|q|` to the nearest multiple of `10 ^ (-9)` and
render it with exactly nine digits after the decimal point, prefixing the
sign. -/
def fmt9 (q : ℚ) : String :=
  (if q.num < 0 then "-" else "") ++ fmt9Nat (round9 q)

/-! ## Block motion dynamics
From `titerra/projects/common/variables/block_motion_dynamics.py`. -/

/-- The XML parent of every block-motion change
(`.//arena_map/blocks/motion`). -/
def kMotionPath : String := ".//arena_map/blocks/motion"

/-- `policy_xml_parents['RW']`: the policy-selector attribute change for
the only registered dynamics type `RW`. -/
def policyXml : XMLAttrChange :=
  ⟨kMotionPath, "policy", "random_walk"⟩

/-- The parsed dynamics attributes consumed by `factory`/`gen_dynamics`:
`attr['dynamics']` (list of (attribute name, base magnitude) pairs),
`attr['factor']` and `attr['cardinality']`.  Only the dynamics type `RW`
exists in `policy_xml_parents`, so the policy change is fixed. -/
structure DynamicsAttr where
  dynamics : List (String × ℚ)
  factor : ℚ
  cardinality : ℕ
deriving Repr

/-- `gen_dynamics` from `block_motion_dynamics.factory`:

    dynamics = [XMLAttrChangeSet(*{policy_xml,
                XMLAttrChange('.//arena_map/blocks/motion', d[0], "0.0")})
                for d in attr['dynamics']]
    for x in range(0, attr['cardinality'] - 1):
        expx = [XMLAttrChangeSet(*{policy_xml,
                XMLAttrChange('.//arena_map/blocks/motion', d[0],
                    str("%3.9f" % (d[1] + d[1] * x * float(attr['factor']))))})
                for d in attr['dynamics']]
        dynamics.extend(expx)

Each two-element Python set is modelled as the two-element list
`[policy_xml, change]`. -/
def gen_dynamics (attr : DynamicsAttr) : List (List XMLAttrChange) :=
  attr.dynamics.map
    (fun d => [policyXml, ⟨kMotionPath, d.1, "0.0"⟩]) ++
  (List.range (attr.cardinality - 1)).flatMap
    (fun x => attr.dynamics.map
      (fun d => [policyXml,
                 ⟨kMotionPath, d.1, fmt9 (d.2 + d.2 * (x : ℚ) * attr.factor)⟩]))

/-- The first pass of `BlockMotionDynamics.calc_xtick`: scan for the last
`policy` attribute under the motion path. -/
def findPolicy (exp_def : List XMLAttrChange) : Option String :=
  exp_def.foldl
    (fun acc c =>
      if pyIn "arena_map/blocks/motion" c.path && c.attr == "policy"
      then some c.value else acc)
    none

/-- `BlockMotionDynamics.calc_xtick`: find the policy value, then return
the value of the first `random_walk_prob` change under the motion path when
the policy is `random_walk`; otherwise `None`.  The Python `float(value)`
conversion is modelled by returning the exact value string found. -/
def calc_xtick (exp_def : List XMLAttrChange) : Option String :=
  let policy := findPolicy exp_def
  (exp_def.find?
     (fun c => pyIn "arena_map/blocks/motion" c.path &&
               policy == some "random_walk" &&
               c.attr == "random_walk_prob")).map (fun c => c.value)

/-! ## Oracle
From `titerra/projects/common/variables/oracle.py`. -/

/-- `Oracle.kInfoTypes['entities']`: the fixed ordered feature list. -/
def kInfoTypesEntities : List String := ["caches", "blocks"]

/-- `str(b).lower()` for a Python bool. -/
def pyBoolStr (b : Bool) : String := if b then "true" else "false"

/-- `itertools.product([False, True], repeat=n)` in its enumeration order:
the first coordinate varies slowest. -/
def prodFT : ℕ → List (List Bool)
  | 0 => [[]]
  | n + 1 => [false, true].flatMap (fun a => (prodFT n).map (a :: ·))

/-- The big-endian `n`-bit representation of `i` (most significant first),
used to characterise the enumeration order. -/
def natToBits : ℕ → ℕ → List Bool
  | 0, _ => []
  | n + 1, i => decide (2 ^ n ≤ i) :: natToBits n (i % 2 ^ n)

/-- `gen_tuples` from `oracle.factory` (the `entities` branch),
parameterised by the oracle name (`attr['oracle_name']`) and the feature
list (`Oracle.kInfoTypes['entities']`):

    for val in list(itertools.product([False, True],
                                      repeat=len(Oracle.kInfoTypes['entities']))):
        tuples.append((attr['oracle_name'],
                       [(Oracle.kInfoTypes['entities'][i], str(val[i]).lower())
                        for i in range(0, len(Oracle.kInfoTypes['entities']))])) -/
def gen_tuples (oracle_name : String) (features : List String) :
    List (String × List (String × String)) :=
  (prodFT features.length).map
    (fun val =>
      (oracle_name,
       (List.range features.length).map
         (fun i => (features.getD i "", pyBoolStr (val.getD i false)))))

/-- The generation loop of `Oracle.gen_attr_changelist` with population
`None`: one change-set per tuple, one change per feature, each under
`.//oracle_manager/<oracle name>`. -/
def oracle_gen_attr_changelist
    (tuples : List (String × List (String × String))) :
    List (List XMLAttrChange) :=
  tuples.map
    (fun t => t.2.map (fun p => ⟨".//oracle_manager/" ++ t.1, p.1, p.2⟩))

/-- The parsed oracle criteria record (`Parser.__call__`'s result dict). -/
structure OracleSpec where
  oracle_name : String
  oracle_type : String
  population : Option ℕ
deriving DecidableEq, Repr

/-- `int()` of a digit run. -/
def digitsToNat (ds : List Char) : ℕ :=
  ds.foldl (fun acc c => 10 * acc + (c.toNat - 48)) 0

/-- `re.search(r"\.Z[0-9]+", s)` followed by `int(group(0)[2:])`: locate
the first `.Z<digits>` occurrence and return the (greedy) digit run. -/
def zSearch : List Char → Option ℕ
  | [] => none
  | '.' :: rest =>
    match rest with
    | 'Z' :: rest2 =>
      let ds := rest2.takeWhile (fun c => c.isDigit)
      if ds.isEmpty then zSearch rest else some (digitsToNat ds)
    | _ => zSearch rest
  | _ :: rest => zSearch rest

/-- `oracle.Parser.__call__`: fills the result record from substring
tests; for strings containing neither `entities` nor `tasking` the name
and type fields keep their initialised empty-string values. -/
def oracleParser (criteria_str : String) : OracleSpec :=
  let tn : String × String :=
    if pyIn "entities" criteria_str then ("entities", "entities_oracle")
    else if pyIn "tasking" criteria_str then ("tasking", "tasking_oracle")
    else ("", "")
  { oracle_name := tn.2, oracle_type := tn.1,
    population := zSearch criteria_str.data }

/-- Command-line options dictionary (contents never inspected by the
embedded code). -/
abbrev Cmdopts := List (String × String)

/-- The Python exceptions the embedded code can raise. -/
inductive PyExc
  | notImplementedError
deriving DecidableEq, Repr

/-- `Oracle.graph_xticklabels`: the body is `raise NotImplementedError`. -/
def oracle_graph_xticklabels (_cmdopts : Cmdopts)
    (_exp_dirs : Option (List String)) : Except PyExc (List String) :=
  .error .notImplementedError

/-- `Oracle.gen_exp_dirnames`: `'exp' + str(x)` for each change-set. -/
def oracle_gen_exp_dirnames (tuples : List (String × List (String × String))) :
    List String :=
  (List.range (oracle_gen_attr_changelist tuples).length).map
    (fun x => "exp" ++ toString x)

/-- Python `float` applied to a machine integer, exact in `ℚ`. -/
def pyFloatOfNat (i : ℕ) : ℚ := i

/-- `Oracle.graph_xticks`: `list(map(float, range(0, len(exp_dirs))))`,
with `exp_dirs` defaulting to the generated directory names. -/
def oracle_graph_xticks (tuples : List (String × List (String × String)))
    (_cmdopts : Cmdopts) (exp_dirs : Option (List String)) : List ℚ :=
  let dirs := match exp_dirs with
    | none => oracle_gen_exp_dirnames tuples
    | some d => d
  (List.range dirs.length).map pyFloatOfNat

/-- `Oracle.graph_xlabel`. -/
def oracle_graph_xlabel (_cmdopts : Cmdopts) : String :=
  "Oracular Information Type"

/-- `Oracle.pm_query`: `pm in ['raw']`. -/
def oracle_pm_query (pm : String) : Bool :=
  ["raw"].contains pm

/-! ## TA policy set
From `titerra/projects/common/variables/ta_policy_set.py`. -/

/-- `TAPolicySet.kPolicies`: the fixed policy registry, in order. -/
def kPolicies : List String :=
  ["random", "stoch_nbhd1", "strict_greedy", "epsilon_greedy", "UCB1"]

/-- `TAPolicySet.gen_attr_changelist`: one change-set per policy, each
then merged (`|=`) with the population change-set `size_chgs`; with
population `None` the source uses the empty `XMLAttrChangeSet()`
(`size_chgs = []` here; a non-empty value models the external
`PopulationSize` helper's single change-set). -/
def ta_gen_attr_changelist (policies : List String)
    (size_chgs : List XMLAttrChange) : List (List XMLAttrChange) :=
  (policies.map
    (fun p => [(⟨".//task_alloc", "policy", p⟩ : XMLAttrChange)])).map
    (fun chgset => chgset ++ size_chgs)

/-- `TAPolicySet.gen_exp_dirnames`: `'exp' + str(x)` per change-set. -/
def ta_gen_exp_dirnames (policies : List String)
    (size_chgs : List XMLAttrChange) : List String :=
  (List.range (ta_gen_attr_changelist policies size_chgs).length).map
    (fun x => "exp" ++ toString x)

/-- `TAPolicySet.graph_xticklabels`: the hand-authored label list. -/
def ta_graph_xticklabels (_cmdopts : Cmdopts)
    (_exp_dirs : Option (List String)) : List String :=
  ["Random", "STOCH-N1", "MAT-OPT", "$\\epsilon$-greedy", "UCB1"]

/-- Python `str.split('.')` on a character list. -/
def splitDots : List Char → List (List Char)
  | [] => [[]]
  | '.' :: rest => [] :: splitDots rest
  | c :: rest =>
    match splitDots rest with
    | [] => [[c]]
    | p :: ps => (c :: p) :: ps

/-- `re.search(r"Z[0-9]+", s)` followed by `int(group(0)[1:])`. -/
def zDigits : List Char → Option ℕ
  | [] => none
  | 'Z' :: rest =>
    let ds := rest.takeWhile (fun c => c.isDigit)
    if ds.isEmpty then zDigits rest else some (digitsToNat ds)
  | _ :: rest => zDigits rest

/-- `ta_policy_set.Parser.__call__`: asserts that the second dot-segment
is the literal `all` (fatal otherwise), and when a third segment exists it
must contain `Z<digits>` giving the population. -/
def taParser (cli_arg : String) : Except String (Option ℕ) :=
  let parts := splitDots cli_arg.data
  if parts.getD 1 [] = "all".data then
    if parts.length = 3 then
      match zDigits (parts.getD 2 []) with
      | some n => .ok (some n)
      | none => .error ("Bad swarm size specification in criteria " ++ cli_arg)
    else .ok none
  else .error ("Bad type specification in criteria " ++ cli_arg)

/-! ## Dynamic cache geometry
From `titerra/projects/fordyca_argos/variables/dynamic_cache.py`. -/

/-- An arena extent: only the upper-right corner coordinates are read. -/
structure ArenaExtent where
  urx : ℚ
  ury : ℚ

/-- `DynamicCache.kCacheDimFrac`. -/
def kCacheDimFrac : ℚ := 15 / 100

/-- `min_dist`: `min(e.ur.x * frac, e.ur.y * frac)`. -/
def min_dist (e : ArenaExtent) : ℚ :=
  min (e.urx * kCacheDimFrac) (e.ury * kCacheDimFrac)

/-- `dimension`: `max(e.ur.x * frac, e.ur.y * frac)`. -/
def cache_dimension (e : ArenaExtent) : ℚ :=
  max (e.urx * kCacheDimFrac) (e.ury * kCacheDimFrac)

/-- `cache_prox_dist`: `max(e.ur.x * frac, e.ur.y * frac)`. -/
def cache_prox_dist (e : ArenaExtent) : ℚ :=
  max (e.urx * kCacheDimFrac) (e.ury * kCacheDimFrac)

/-- `new_cache_tol`: `max(e.ur.x * 0.75 * frac, e.ur.y * 0.75 * frac)`. -/
def new_cache_tol (e : ArenaExtent) : ℚ :=
  max (e.urx * (75 / 100) * kCacheDimFrac) (e.ury * (75 / 100) * kCacheDimFrac)

/-- `nest_prox_dist`: `max(e.ur.x * frac, e.ur.y * frac)`. -/
def nest_prox_dist (e : ArenaExtent) : ℚ :=
  max (e.urx * kCacheDimFrac) (e.ury * kCacheDimFrac)

/-- `block_prox_dist`: `max(e.ur.x * frac, e.ur.y * frac)`. -/
def block_prox_dist (e : ArenaExtent) : ℚ :=
  max (e.urx * kCacheDimFrac) (e.ury * kCacheDimFrac)

/-- `prox_dist` of the pickup policy: `max(e.ur.x * frac, e.ur.y * frac)`. -/
def pickup_prox_dist (e : ArenaExtent) : ℚ :=
  max (e.urx * kCacheDimFrac) (e.ury * kCacheDimFrac)

/-- Lower bound of `site_xrange`: `max(...) / 2.0`. -/
def site_xrange_lo (e : ArenaExtent) : ℚ :=
  max (e.urx * kCacheDimFrac) (e.ury * kCacheDimFrac) / 2

/-- Upper bound of `site_xrange`: `e.ur.x - max(...) / 2.0`. -/
def site_xrange_hi (e : ArenaExtent) : ℚ :=
  e.urx - max (e.urx * kCacheDimFrac) (e.ury * kCacheDimFrac) / 2

/-- Lower bound of `site_yrange`: `max(...) / 2.0`. -/
def site_yrange_lo (e : ArenaExtent) : ℚ :=
  max (e.urx * kCacheDimFrac) (e.ury * kCacheDimFrac) / 2

/-- Upper bound of `site_yrange`: `e.ur.y - max(...) / 2.0`. -/
def site_yrange_hi (e : ArenaExtent) : ℚ :=
  e.ury - max (e.urx * kCacheDimFrac) (e.ury * kCacheDimFrac) / 2

/-- `DynamicCache.gen_attr_changelist`: one change-set per extent, in the
source's insertion order.  Range values render their lower bound with
`str()` (modelled by `toString` on the exact rational) and the upper bound
with 9 decimals, exactly as `"{0}:{1:.9f}".format(lo, hi)`. -/
def dynamic_cache_gen_attr_changelist (extents : List ArenaExtent) :
    List (List XMLAttrChange) :=
  extents.map (fun e =>
    [⟨".//loop_functions/caches/dynamic", "enable", "true"⟩,
     ⟨".//loop_functions/caches/static", "enable", "false"⟩,
     ⟨".//loop_functions/caches/dynamic", "min_dist", fmt9 (min_dist e)⟩,
     ⟨".//loop_functions/caches", "dimension", fmt9 (cache_dimension e)⟩,
     ⟨".//cache_sel_matrix", "cache_prox_dist", fmt9 (cache_prox_dist e)⟩,
     ⟨".//cache_sel_matrix", "new_cache_tol", fmt9 (new_cache_tol e)⟩,
     ⟨".//cache_sel_matrix", "nest_prox_dist", fmt9 (nest_prox_dist e)⟩,
     ⟨".//cache_sel_matrix", "block_prox_dist", fmt9 (block_prox_dist e)⟩,
     ⟨".//block_sel_matrix/pickup_policy", "prox_dist",
      fmt9 (pickup_prox_dist e)⟩,
     ⟨".//cache_sel_matrix", "site_xrange",
      toString (site_xrange_lo e) ++ ":" ++ fmt9 (site_xrange_hi e)⟩,
     ⟨".//cache_sel_matrix", "site_yrange",
      toString (site_yrange_lo e) ++ ":" ++ fmt9 (site_yrange_hi e)⟩])

/-! ## General list helpers -/

/-- A successful `get?` witnesses that the index is in range. -/
theorem lt_len_of_getq {α : Type _} {l : List α} {i : ℕ} {a : α}
    (h : l.get? i = some a) : i < l.length := by
  by_contra hlt
  push_neg at hlt
  rw [List.get?_eq_none.mpr hlt] at h
  cases h

/-- Indexing into a `flatMap` whose blocks all have length `D`. -/
theorem flatMap_getq_const {α β : Type _} (g : α → List β) (D : ℕ)
    (hD : ∀ a, (g a).length = D) :
    ∀ (xs : List α) (j i : ℕ), i < D →
      (xs.flatMap g).get? (j * D + i) = (xs.get? j).bind fun a => (g a).get? i := by
  intro xs
  induction xs with
  | nil => intro j i _; simp
  | cons a xs ih =>
    intro j i hi
    cases j with
    | zero =>
      simp only [List.flatMap_cons, Nat.zero_mul, Nat.zero_add]
      rw [List.get?_append (by rw [hD]; exact hi)]
      simp
    | succ j =>
      have h1 : (j + 1) * D + i = (g a).length + (j * D + i) := by rw [hD]; ring
      rw [List.flatMap_cons, h1, List.get?_append_right (Nat.le_add_right _ _),
          Nat.add_sub_cancel_left]
      exact ih j i hi

/-- Length of a `flatMap` whose blocks all have length `D`. -/
theorem flatMap_length_const {α β : Type _} (g : α → List β) (D : ℕ)
    (hD : ∀ a, (g a).length = D) :
    ∀ xs : List α, (xs.flatMap g).length = xs.length * D := by
  intro xs
  induction xs with
  | nil => simp
  | cons a xs ih =>
    rw [List.flatMap_cons, List.length_append, hD, ih, List.length_cons,
        Nat.succ_mul, Nat.add_comm]

/-! ## Structure of the generated dynamics sequence -/

/-- Entry `i` (for `i` below the number of dynamics pairs) is the baseline
change-set of pair `i`: its attribute is set to the literal string `"0.0"`
next to the policy selector. -/
theorem gen_dynamics_getq_base (attr : DynamicsAttr) {i : ℕ} {d : String × ℚ}
    (hi : attr.dynamics.get? i = some d) :
    (gen_dynamics attr).get? i = some [policyXml, ⟨kMotionPath, d.1, "0.0"⟩] := by
  unfold gen_dynamics
  rw [List.get?_append (by rw [List.length_map]; exact lt_len_of_getq hi),
      List.get?_map, hi]
  rfl

/-- Entry `D + (x * D + i)` (block `x` of the progression, pair `i`, with
`D` the number of dynamics pairs) sets pair `i`'s attribute to
`base + base * x * factor` formatted with 9 decimals. -/
theorem gen_dynamics_getq_step (attr : DynamicsAttr) {x i : ℕ} {d : String × ℚ}
    (hx : x < attr.cardinality - 1) (hi : attr.dynamics.get? i = some d) :
    (gen_dynamics attr).get?
        (attr.dynamics.length + (x * attr.dynamics.length + i)) =
      some [policyXml,
            ⟨kMotionPath, d.1, fmt9 (d.2 + d.2 * (x : ℚ) * attr.factor)⟩] := by
  unfold gen_dynamics
  rw [List.get?_append_right (by rw [List.length_map]; exact Nat.le_add_right _ _),
      List.length_map, Nat.add_sub_cancel_left,
      flatMap_getq_const _ attr.dynamics.length
        (fun _ => by rw [List.length_map]) _ _ _ (lt_len_of_getq hi),
      List.get?_range hx]
  simp only [Option.some_bind, List.get?_map, hi, Option.map_some']

/-- Total length of the generated sequence: one block per pair for the
baseline plus one block per progression step. -/
theorem gen_dynamics_length (attr : DynamicsAttr) (hN : 1 ≤ attr.cardinality) :
    (gen_dynamics attr).length = attr.dynamics.length * attr.cardinality := by
  obtain ⟨M, hM⟩ : ∃ M, attr.cardinality = M + 1 := ⟨attr.cardinality - 1, by omega⟩
  unfold gen_dynamics
  rw [List.length_append, List.length_map,
      flatMap_length_const _ attr.dynamics.length (fun _ => by rw [List.length_map]),
      List.length_range, hM, Nat.succ_sub_one]
  ring

/-! ## Claims C1-C3: the dynamics generator -/

/-- C1, counterexample: entry 0 of the generated sequence does *not* set
every listed attribute when the parsed spec holds more than one
(attribute, base) pair — with pairs `alpha` and `beta`, entry 0 carries
only `alpha` (set to `"0.0"`) and no change for `beta` at all. -/
theorem gen_dynamics_two_pairs_baseline_misses_attr :
    (gen_dynamics ⟨[("alpha", (1 : ℚ)), ("beta", 2)], 1, 1⟩).get? 0 =
      some [policyXml, ⟨kMotionPath, "alpha", "0.0"⟩] ∧
    ((gen_dynamics ⟨[("alpha", (1 : ℚ)), ("beta", 2)], 1, 1⟩).getD 0 []).all
      (fun c => c.attr != "beta") = true := by
  exact ⟨rfl, rfl⟩

/-- C1, amended: the generator emits one change-set per (attribute, base)
pair per step, not one combined change-set per step.  For every pair `d`
at position `i` of the parsed list, entry `i` is the baseline change-set
`{policy, d.1 = "0.0"}`, and for every step index `x = 0 .. N-2` the entry
at position `D + x * D + i` (with `D` the number of pairs) sets `d.1` to
`base + base * x * factor` formatted with 9 decimals, still carrying the
policy-selector attribute.  When the list has exactly one pair this is
precisely the claimed shape (entry 0 baseline, entry `x + 1` progression). -/
theorem gen_dynamics_per_pair_structure (dyn : List (String × ℚ)) (f : ℚ)
    (N x i : ℕ) (d : String × ℚ)
    (hx : x < N - 1) (hi : dyn.get? i = some d) :
    (gen_dynamics ⟨dyn, f, N⟩).get? i =
      some [policyXml, ⟨kMotionPath, d.1, "0.0"⟩] ∧
    (gen_dynamics ⟨dyn, f, N⟩).get? (dyn.length + (x * dyn.length + i)) =
      some [policyXml, ⟨kMotionPath, d.1, fmt9 (d.2 + d.2 * (x : ℚ) * f)⟩] :=
  ⟨gen_dynamics_getq_base _ hi, gen_dynamics_getq_step _ hx hi⟩

/-- C1, witness: the amended theorem applied to the one-pair `RW` spec
with base 1, factor 1, cardinality 2, at step 0. -/
theorem gen_dynamics_per_pair_structure_witness :
    ((0 < 2 - 1 ∧
      [("random_walk_prob", (1 : ℚ))].get? 0 = some ("random_walk_prob", 1))) ∧
    ((gen_dynamics ⟨[("random_walk_prob", (1 : ℚ))], 1, 2⟩).get? 0 =
       some [policyXml, ⟨kMotionPath, "random_walk_prob", "0.0"⟩] ∧
     (gen_dynamics ⟨[("random_walk_prob", (1 : ℚ))], 1, 2⟩).get?
         ([("random_walk_prob", (1 : ℚ))].length +
          (0 * [("random_walk_prob", (1 : ℚ))].length + 0)) =
       some [policyXml, ⟨kMotionPath, "random_walk_prob",
             fmt9 ((("random_walk_prob", (1 : ℚ))).2 +
                   (("random_walk_prob", (1 : ℚ))).2 * ((0 : ℕ) : ℚ) * 1)⟩]) :=
  ⟨⟨by decide, rfl⟩,
   gen_dynamics_per_pair_structure [("random_walk_prob", (1 : ℚ))] 1 2 0 0
     ("random_walk_prob", 1) (by decide) rfl⟩

/-- C2, counterexample: for the one-pair spec (base 1, factor 1,
cardinality 2), entry 0 carries the literal string `"0.0"`, not
`"0.000000000"`, and entry 1 carries `"1.000000000"` — the value
`base + base * 0 * factor` — whereas the claimed formula
`base * (1 + k * factor)` at `k = 1` would give `"2.000000000"`. -/
theorem change_sequence_entry_values_cex :
    (gen_dynamics ⟨[("random_walk_prob", (1 : ℚ))], 1, 2⟩).get? 0 =
      some [policyXml, ⟨kMotionPath, "random_walk_prob", "0.0"⟩] ∧
    "0.0" ≠ "0.000000000" ∧
    (gen_dynamics ⟨[("random_walk_prob", (1 : ℚ))], 1, 2⟩).get? 1 =
      some [policyXml, ⟨kMotionPath, "random_walk_prob", "1.000000000"⟩] ∧
    fmt9 ((1 : ℚ) * (1 + 1 * 1)) = "2.000000000" := by
  refine ⟨by decide, by decide, ?_, ?_⟩
  · have h := @gen_dynamics_getq_step ⟨[("random_walk_prob", (1 : ℚ))], 1, 2⟩
      0 0 ("random_walk_prob", 1) (by decide) rfl
    norm_num at h
    rw [show fmt9 (1 : ℚ) = "1.000000000" from by decide] at h
    exact h
  · rw [show ((1 : ℚ) * (1 + 1 * 1)) = 2 from by norm_num]
    decide

/-- C2, amended: for one-pair specs, entry 0 holds the literal `"0.0"`
(not a 9-decimal rendering), and entry `x + 1` (for `x = 0 .. N-2`) holds
`base * (1 + x * factor)` formatted to 9 decimals — that is, entry `k`
holds `base * (1 + (k-1) * factor)`, not `base * (1 + k * factor)`; the
length is `N`. -/
theorem change_sequence_single_pair_values (a : String) (b f : ℚ) (N x : ℕ)
    (hN : 1 ≤ N) (hx : x < N - 1) :
    (gen_dynamics ⟨[(a, b)], f, N⟩).length = N ∧
    (gen_dynamics ⟨[(a, b)], f, N⟩).get? 0 =
      some [policyXml, ⟨kMotionPath, a, "0.0"⟩] ∧
    (gen_dynamics ⟨[(a, b)], f, N⟩).get? (x + 1) =
      some [policyXml, ⟨kMotionPath, a, fmt9 (b * (1 + (x : ℚ) * f))⟩] := by
  refine ⟨by simpa using gen_dynamics_length ⟨[(a, b)], f, N⟩ hN,
          @gen_dynamics_getq_base ⟨[(a, b)], f, N⟩ 0 (a, b) rfl, ?_⟩
  have h := @gen_dynamics_getq_step ⟨[(a, b)], f, N⟩ x 0 (a, b) hx rfl
  have hidx : [(a, b)].length + (x * [(a, b)].length + 0) = x + 1 := by
    simp only [List.length_cons, List.length_nil]
    omega
  have harg : ((a, b).2 + (a, b).2 * (x : ℚ) * f) = b * (1 + (x : ℚ) * f) := by
    show b + b * (x : ℚ) * f = b * (1 + (x : ℚ) * f)
    ring
  rw [hidx, harg] at h
  exact h

/-- C2, witness: the amended theorem at base 1, factor 1, cardinality 3,
step 1. -/
theorem change_sequence_single_pair_values_witness :
    (1 ≤ 3 ∧ 1 < 3 - 1) ∧
    ((gen_dynamics ⟨[("random_walk_prob", (1 : ℚ))], 1, 3⟩).length = 3 ∧
     (gen_dynamics ⟨[("random_walk_prob", (1 : ℚ))], 1, 3⟩).get? 0 =
       some [policyXml, ⟨kMotionPath, "random_walk_prob", "0.0"⟩] ∧
     (gen_dynamics ⟨[("random_walk_prob", (1 : ℚ))], 1, 3⟩).get? (1 + 1) =
       some [policyXml, ⟨kMotionPath, "random_walk_prob",
             fmt9 ((1 : ℚ) * (1 + ((1 : ℕ) : ℚ) * 1))⟩]) :=
  ⟨⟨by decide, by decide⟩,
   change_sequence_single_pair_values "random_walk_prob" 1 1 3 1
     (by decide) (by decide)⟩

/-- C3, counterexample: with two (attribute, base) pairs and cardinality
`N = 1` the generated list has length 2, not `N = 1`. -/
theorem gen_dynamics_length_cex :
    (gen_dynamics ⟨[("alpha", (1 : ℚ)), ("beta", 2)], 1, 1⟩).length = 2 ∧
    (2 : ℕ) ≠ 1 := by
  exact ⟨rfl, by decide⟩

/-- C3, amended: for cardinality `N ≥ 1` and `D` (attribute, base) pairs
the generated list has length `D * N` (each of the baseline and the `N-1`
progression steps contributes one change-set per pair); it equals `N`
exactly when there is a single pair. -/
theorem gen_dynamics_length_total (dyn : List (String × ℚ)) (f : ℚ) (N : ℕ)
    (hN : 1 ≤ N) :
    (gen_dynamics ⟨dyn, f, N⟩).length = dyn.length * N :=
  gen_dynamics_length _ hN

/-- C3, witness: the amended theorem at two pairs and cardinality 3. -/
theorem gen_dynamics_length_total_witness :
    1 ≤ 3 ∧
    (gen_dynamics ⟨[("alpha", (1 : ℚ)), ("beta", 2)], 1, 3⟩).length =
      [("alpha", (1 : ℚ)), ("beta", 2)].length * 3 :=
  ⟨by decide, gen_dynamics_length_total [("alpha", (1 : ℚ)), ("beta", 2)] 1 3 (by decide)⟩

/-! ## Claim C4: tick recovery -/

/-- `calc_xtick` on any `RW`-generated change-set recovers the stored
value string. -/
theorem calc_xtick_rw_entry (v : String) :
    calc_xtick [policyXml, ⟨kMotionPath, "random_walk_prob", v⟩] = some v := rfl

/-- C4: round-trip of tick recovery.  Every progression change-set of the
`RW` generator (tracked attribute `random_walk_prob`, as registered by
`BlockMotionDynamicsParser.specs_dict`) stores `base + base * x * factor`
formatted to 9 decimals, and `calc_xtick` applied to that change-set
returns exactly that value; and on any change-set in which no recognized
policy/attribute combination occurs under the motion xpath, `calc_xtick`
returns `none` rather than failing. -/
theorem calc_xtick_roundtrip (b f : ℚ) (N x : ℕ) (l : List XMLAttrChange)
    (hx : x < N - 1)
    (hl : ∀ c ∈ l, ¬(pyIn "arena_map/blocks/motion" c.path = true ∧
                     findPolicy l = some "random_walk" ∧
                     c.attr = "random_walk_prob")) :
    (gen_dynamics ⟨[("random_walk_prob", b)], f, N⟩).get? (x + 1) =
      some [policyXml, ⟨kMotionPath, "random_walk_prob",
            fmt9 (b + b * (x : ℚ) * f)⟩] ∧
    Option.map calc_xtick
        ((gen_dynamics ⟨[("random_walk_prob", b)], f, N⟩).get? (x + 1)) =
      some (some (fmt9 (b + b * (x : ℚ) * f))) ∧
    calc_xtick l = none := by
  have h := @gen_dynamics_getq_step ⟨[("random_walk_prob", b)], f, N⟩ x 0
    ("random_walk_prob", b) hx rfl
  have hidx : [("random_walk_prob", b)].length +
      (x * [("random_walk_prob", b)].length + 0) = x + 1 := by
    simp only [List.length_cons, List.length_nil]
    omega
  rw [hidx] at h
  refine ⟨h, ?_, ?_⟩
  · rw [h, Option.map_some', calc_xtick_rw_entry]
  · show (l.find? _).map _ = none
    rw [List.find?_eq_none.mpr]
    · rfl
    · intro c hc hcontra
      apply hl c hc
      simp only [Bool.and_eq_true, beq_iff_eq] at hcontra
      exact ⟨hcontra.1.1, hcontra.1.2, hcontra.2⟩

/-- C4, witness: round-trip at base 1, factor 1, cardinality 2, step 0,
and `none` on a change-set with no motion-path change. -/
theorem calc_xtick_roundtrip_witness :
    (0 < 2 - 1 ∧
     (∀ c ∈ [(⟨"other/path", "speed", "3"⟩ : XMLAttrChange)],
        ¬(pyIn "arena_map/blocks/motion" c.path = true ∧
          findPolicy [(⟨"other/path", "speed", "3"⟩ : XMLAttrChange)] =
            some "random_walk" ∧
          c.attr = "random_walk_prob"))) ∧
    ((gen_dynamics ⟨[("random_walk_prob", (1 : ℚ))], 1, 2⟩).get? (0 + 1) =
       some [policyXml, ⟨kMotionPath, "random_walk_prob",
             fmt9 ((1 : ℚ) + 1 * ((0 : ℕ) : ℚ) * 1)⟩] ∧
     Option.map calc_xtick
         ((gen_dynamics ⟨[("random_walk_prob", (1 : ℚ))], 1, 2⟩).get? (0 + 1)) =
       some (some (fmt9 ((1 : ℚ) + 1 * ((0 : ℕ) : ℚ) * 1))) ∧
     calc_xtick [(⟨"other/path", "speed", "3"⟩ : XMLAttrChange)] = none) :=
  ⟨⟨by decide, by decide⟩,
   calc_xtick_roundtrip 1 1 2 0 [(⟨"other/path", "speed", "3"⟩ : XMLAttrChange)]
     (by decide) (by decide)⟩

/-! ## The boolean product enumeration -/

/-- Unfolding of `prodFT` at a successor: the `false`-headed block comes
first, then the `true`-headed block. -/
theorem prodFT_succ (n : ℕ) :
    prodFT (n + 1) =
      (prodFT n).map (false :: ·) ++ (prodFT n).map (true :: ·) := by
  simp [prodFT]

/-- `prodFT n` has `2 ^ n` elements. -/
theorem prodFT_length (n : ℕ) : (prodFT n).length = 2 ^ n := by
  induction n with
  | zero => rfl
  | succ n ih =>
    rw [prodFT_succ, List.length_append, List.length_map, List.length_map, ih,
        pow_succ]
    omega

/-- `prodFT n` contains exactly the boolean vectors of length `n`. -/
theorem prodFT_mem (n : ℕ) (v : List Bool) : v ∈ prodFT n ↔ v.length = n := by
  induction n generalizing v with
  | zero => simp [prodFT, List.length_eq_zero]
  | succ n ih =>
    rw [prodFT_succ]
    simp only [List.mem_append, List.mem_map]
    constructor
    · rintro (⟨w, hw, rfl⟩ | ⟨w, hw, rfl⟩) <;>
        simp [List.length_cons, (ih w).mp hw]
    · intro hv
      cases v with
      | nil => simp at hv
      | cons a w =>
        have hw : w.length = n := by simpa using hv
        cases a
        · exact Or.inl ⟨w, (ih w).mpr hw, rfl⟩
        · exact Or.inr ⟨w, (ih w).mpr hw, rfl⟩

/-- The vectors of `prodFT n` are pairwise distinct. -/
theorem prodFT_nodup (n : ℕ) : (prodFT n).Nodup := by
  induction n with
  | zero => simp [prodFT]
  | succ n ih =>
    rw [prodFT_succ]
    refine List.Nodup.append ?_ ?_ ?_
    · exact ih.map (fun a b h => by injection h)
    · exact ih.map (fun a b h => by injection h)
    · intro v hv hv2
      obtain ⟨w, _, rfl⟩ := List.mem_map.mp hv
      obtain ⟨w2, _, h⟩ := List.mem_map.mp hv2
      simp at h

/-- The enumeration order of `prodFT n` is the lexicographic product
order with the first coordinate most significant: element `i` is the
big-endian `n`-bit representation of `i`. -/
theorem prodFT_eq_range_map (n : ℕ) :
    prodFT n = (List.range (2 ^ n)).map (natToBits n) := by
  induction n with
  | zero => rfl
  | succ n ih =>
    rw [prodFT_succ, ih]
    have h2 : 2 ^ (n + 1) = 2 ^ n + 2 ^ n := by ring
    rw [h2, List.range_add, List.map_append, List.map_map, List.map_map,
        List.map_map]
    congr 1
    · apply List.map_congr_left
      intro i hi
      have hi2 : i < 2 ^ n := List.mem_range.mp hi
      show false :: natToBits n i = natToBits (n + 1) i
      simp only [natToBits, Nat.mod_eq_of_lt hi2,
                 decide_eq_false (Nat.not_le.mpr hi2)]
    · apply List.map_congr_left
      intro i hi
      have hi2 : i < 2 ^ n := List.mem_range.mp hi
      show true :: natToBits n i = natToBits (n + 1) (2 ^ n + i)
      simp only [natToBits, Nat.add_mod_left, Nat.mod_eq_of_lt hi2,
                 decide_eq_true (Nat.le_add_right (2 ^ n) i)]

/-! ## Claim C5: the combinatorial enumerator -/

/-- C5: for every ordered feature list of length `K` and oracle name, the
enumerator yields exactly `2 ^ K` change-sets; change-set `j` consists of
`K` entries under `.//oracle_manager/<name>` whose values are the
lowercase renderings of boolean vector `j` of `prodFT K`; the vectors are
pairwise distinct and cover exactly the boolean vectors of length `K`; and
the enumeration order is lexicographic with the first feature most
significant (vector `i` is the big-endian `K`-bit representation of `i`). -/
theorem oracle_enumeration (nm : String) (fs : List String) :
    (oracle_gen_attr_changelist (gen_tuples nm fs)).length = 2 ^ fs.length ∧
    oracle_gen_attr_changelist (gen_tuples nm fs) =
      (prodFT fs.length).map
        (fun val => (List.range fs.length).map
          (fun i => ⟨".//oracle_manager/" ++ nm, fs.getD i "",
                     pyBoolStr (val.getD i false)⟩)) ∧
    (∀ cs ∈ oracle_gen_attr_changelist (gen_tuples nm fs),
       cs.length = fs.length) ∧
    (prodFT fs.length).Nodup ∧
    (∀ v : List Bool, v ∈ prodFT fs.length ↔ v.length = fs.length) ∧
    prodFT fs.length = (List.range (2 ^ fs.length)).map (natToBits fs.length) := by
  have hchar : oracle_gen_attr_changelist (gen_tuples nm fs) =
      (prodFT fs.length).map
        (fun val => (List.range fs.length).map
          (fun i => ⟨".//oracle_manager/" ++ nm, fs.getD i "",
                     pyBoolStr (val.getD i false)⟩)) := by
    unfold oracle_gen_attr_changelist gen_tuples
    rw [List.map_map]
    apply List.map_congr_left
    intro val _
    show ((List.range fs.length).map _).map _ = _
    rw [List.map_map]
    rfl
  refine ⟨?_, hchar, ?_, prodFT_nodup _, prodFT_mem _, prodFT_eq_range_map _⟩
  · rw [hchar, List.length_map, prodFT_length]
  · intro cs hcs
    rw [hchar] at hcs
    obtain ⟨val, _, rfl⟩ := List.mem_map.mp hcs
    rw [List.length_map, List.length_range]

/-! ## Claims C6 and C7: the geometry calculator -/

/-- C6: for every extent with positive upper-right coordinates, the
relaxed creation tolerance (0.75 factor) is strictly below the cache
proximity threshold, and these are exactly the `new_cache_tol` and
`cache_prox_dist` values carried (9-decimal formatted) by that extent's
generated change-set. -/
theorem new_cache_tol_lt_cache_prox_dist (e : ArenaExtent)
    (hx : 0 < e.urx) (hy : 0 < e.ury) :
    new_cache_tol e < cache_prox_dist e ∧
    (⟨".//cache_sel_matrix", "new_cache_tol", fmt9 (new_cache_tol e)⟩ :
        XMLAttrChange) ∈ (dynamic_cache_gen_attr_changelist [e]).getD 0 [] ∧
    (⟨".//cache_sel_matrix", "cache_prox_dist", fmt9 (cache_prox_dist e)⟩ :
        XMLAttrChange) ∈ (dynamic_cache_gen_attr_changelist [e]).getD 0 [] := by
  refine ⟨?_, ?_, ?_⟩
  · unfold new_cache_tol cache_prox_dist kCacheDimFrac
    apply max_lt_max <;> nlinarith
  · simp [dynamic_cache_gen_attr_changelist]
  · simp [dynamic_cache_gen_attr_changelist]

/-- C6, witness: the invariant at the extent (10, 5). -/
theorem new_cache_tol_lt_cache_prox_dist_witness :
    (0 < (10 : ℚ) ∧ 0 < (5 : ℚ)) ∧
    (new_cache_tol ⟨10, 5⟩ < cache_prox_dist ⟨10, 5⟩ ∧
     (⟨".//cache_sel_matrix", "new_cache_tol", fmt9 (new_cache_tol ⟨10, 5⟩)⟩ :
         XMLAttrChange) ∈ (dynamic_cache_gen_attr_changelist [⟨10, 5⟩]).getD 0 [] ∧
     (⟨".//cache_sel_matrix", "cache_prox_dist", fmt9 (cache_prox_dist ⟨10, 5⟩)⟩ :
         XMLAttrChange) ∈ (dynamic_cache_gen_attr_changelist [⟨10, 5⟩]).getD 0 []) :=
  ⟨⟨by norm_num, by norm_num⟩,
   new_cache_tol_lt_cache_prox_dist ⟨10, 5⟩ (by norm_num) (by norm_num)⟩

/-- C7, counterexample: for the positive extent (1, 10) the generated
`site_xrange` is degenerate — its lower bound (0.75) is not below its
upper bound (0.25). -/
theorem site_xrange_degenerate_cex :
    0 < ((⟨1, 10⟩ : ArenaExtent)).urx ∧ 0 < ((⟨1, 10⟩ : ArenaExtent)).ury ∧
    ¬(site_xrange_lo ⟨1, 10⟩ < site_xrange_hi ⟨1, 10⟩) := by
  refine ⟨by norm_num, by norm_num, ?_⟩
  unfold site_xrange_lo site_xrange_hi kCacheDimFrac
  simp only [max_def]
  norm_num

/-- C7, amended: both placement ranges are non-degenerate provided the
larger-threshold value (the cache dimension) is smaller than each extent
dimension — which holds e.g. for square extents but fails for skewed ones
such as (1, 10). -/
theorem site_ranges_nondegenerate (e : ArenaExtent)
    (hx : 0 < e.urx) (hy : 0 < e.ury)
    (hdx : cache_dimension e < e.urx) (hdy : cache_dimension e < e.ury) :
    site_xrange_lo e < site_xrange_hi e ∧
    site_yrange_lo e < site_yrange_hi e := by
  unfold cache_dimension at hdx hdy
  unfold site_xrange_lo site_xrange_hi site_yrange_lo site_yrange_hi
  constructor <;> linarith

/-- C7, witness: the amended theorem at the square extent (10, 10). -/
theorem site_ranges_nondegenerate_witness :
    (0 < (10 : ℚ) ∧ 0 < (10 : ℚ) ∧
     cache_dimension ⟨10, 10⟩ < 10 ∧ cache_dimension ⟨10, 10⟩ < 10) ∧
    (site_xrange_lo ⟨10, 10⟩ < site_xrange_hi ⟨10, 10⟩ ∧
     site_yrange_lo ⟨10, 10⟩ < site_yrange_hi ⟨10, 10⟩) :=
  ⟨⟨by norm_num, by norm_num,
    by unfold cache_dimension kCacheDimFrac; simp only [max_self]; norm_num,
    by unfold cache_dimension kCacheDimFrac; simp only [max_self]; norm_num⟩,
   site_ranges_nondegenerate ⟨10, 10⟩ (by norm_num) (by norm_num)
     (by unfold cache_dimension kCacheDimFrac; simp only [max_self]; norm_num)
     (by unfold cache_dimension kCacheDimFrac; simp only [max_self]; norm_num)⟩

/-! ## Claim C8: the TA policy set -/

/-- C8: parsing `TAPolicySet.all` succeeds with no population; the
generator yields exactly five change-sets, one per policy in the fixed
registry order; the directory names are `exp0 .. exp4`; and the tick
labels are the fixed hand-authored list, whose length matches the policy
registry. -/
theorem ta_policy_set_all_spec :
    taParser "TAPolicySet.all" = Except.ok none ∧
    ta_gen_attr_changelist kPolicies [] =
      [[⟨".//task_alloc", "policy", "random"⟩],
       [⟨".//task_alloc", "policy", "stoch_nbhd1"⟩],
       [⟨".//task_alloc", "policy", "strict_greedy"⟩],
       [⟨".//task_alloc", "policy", "epsilon_greedy"⟩],
       [⟨".//task_alloc", "policy", "UCB1"⟩]] ∧
    ta_gen_exp_dirnames kPolicies [] =
      ["exp0", "exp1", "exp2", "exp3", "exp4"] ∧
    (∀ (cmdopts : Cmdopts) (exp_dirs : Option (List String)),
       ta_graph_xticklabels cmdopts exp_dirs =
         ["Random", "STOCH-N1", "MAT-OPT", "$\\epsilon$-greedy", "UCB1"]) ∧
    (ta_graph_xticklabels [] none).length = kPolicies.length :=
  ⟨rfl, rfl, rfl, fun _ _ => rfl, rfl⟩

/-! ## Claim C9: the oracle criteria parser -/

/-- C9, counterexample: for the criteria string `foo.Z5`, which contains
neither `entities` nor `tasking`, the parser does not fail — it returns a
record with empty name and type fields (and still extracts the population
5), contradicting the claim that parsing fails at parse time. -/
theorem oracle_parser_returns_record_cex :
    oracleParser "foo.Z5" =
      { oracle_name := "", oracle_type := "", population := some 5 } := by
  decide

/-- C9, amended: for every criteria string containing neither `entities`
nor `tasking`, the parser raises no error and returns a record whose
`oracle_type` and `oracle_name` are the empty string (with any `.Z<int>`
population suffix still parsed); the malformation only surfaces
downstream, when the factory's `gen_tuples` yields no enumeration. -/
theorem oracle_parser_unrecognized (s : String)
    (h1 : pyIn "entities" s = false) (h2 : pyIn "tasking" s = false) :
    (oracleParser s).oracle_type = "" ∧
    (oracleParser s).oracle_name = "" ∧
    (oracleParser s).population = zSearch s.data := by
  simp [oracleParser, h1, h2]

/-- C9, witness: the amended theorem at the string `foo.Z5`. -/
theorem oracle_parser_unrecognized_witness :
    (pyIn "entities" "foo.Z5" = false ∧ pyIn "tasking" "foo.Z5" = false) ∧
    ((oracleParser "foo.Z5").oracle_type = "" ∧
     (oracleParser "foo.Z5").oracle_name = "" ∧
     (oracleParser "foo.Z5").population = zSearch "foo.Z5".data) :=
  ⟨⟨by decide, by decide⟩,
   oracle_parser_unrecognized "foo.Z5" (by decide) (by decide)⟩

/-! ## Claim C10: `Oracle.graph_xticklabels` -/

/-- C10: for every cmdopts value and every `exp_dirs` argument (present
or absent), `Oracle.graph_xticklabels` raises `NotImplementedError`,
while the other query operations succeed: `graph_xticks` yields one value
per directory, `graph_xlabel` returns its static label, and `pm_query`
accepts `raw`. -/
theorem oracle_graph_xticklabels_always_raises (cmdopts : Cmdopts)
    (exp_dirs : Option (List String)) (dirs : List String)
    (tuples : List (String × List (String × String))) :
    oracle_graph_xticklabels cmdopts exp_dirs =
      Except.error PyExc.notImplementedError ∧
    oracle_graph_xlabel cmdopts = "Oracular Information Type" ∧
    (oracle_graph_xticks tuples cmdopts (some dirs)).length = dirs.length ∧
    oracle_pm_query "raw" = true := by
  refine ⟨rfl, rfl, ?_, rfl⟩
  show ((List.range dirs.length).map pyFloatOfNat).length = dirs.length
  rw [List.length_map, List.length_range]
